import Mathlib

/-!
Shallow embedding of the authenticated-session core of the GAIAGs
TD Ameritrade python client (src/td/client.py and src/td/watchlist_item.py),
together with theorems settling the frozen claims about its specification.

Conventions of the embedding:
 - machine time is an integer number of epoch seconds, passed explicitly
   as `now` wherever the source calls `time.time()`;
 - python dictionaries with a fixed key set become structures; the two
   dynamic dictionaries (the watch-list query parameters and the validation
   table) become association lists;
 - a python value of `None`-or-string type becomes `Option String`, and
   python truthiness of such a value is the `falsy` predicate below;
 - code that can raise an uncaught exception (KeyError, IndexError,
   TypeError) returns `Option`, with `none` marking the escaping exception;
 - the HTTP transport is abstracted: functions that perform a network round
   trip take the response the server would return as an argument and also
   report the number of HTTP requests they issue, so that claims about
   "no network call" and "no retry" can be stated.
-/

set_option autoImplicit false

namespace TD

/-- Python truthiness of an optional string: `None` and the empty string
are falsy, every other string is truthy. -/
def falsy : Option String → Bool
  | none => true
  | some s => s = ""

/-- The `self.state` dictionary initialised in `TDClient.__init__`
(src/td/client.py lines 61-69). -/
structure SessionState where
  access_token : Option String
  refresh_token : Option String
  access_token_expires_at : Int
  refresh_token_expires_at : Int
  authorization_url : Option String
  redirect_code : Option String
  loggedin : Bool
deriving DecidableEq

/-- The default (empty) state values set in `__init__`. -/
def SessionState.default : SessionState :=
  { access_token := none
    refresh_token := none
    access_token_expires_at := 0
    refresh_token_expires_at := 0
    authorization_url := none
    redirect_code := none
    loggedin := false }

/-- The `self.config` switches that the session core consults
(src/td/client.py lines 51-58). -/
structure Config where
  cache_state : Bool
  refresh_enabled : Bool
deriving DecidableEq

/-- The configuration values set in `__init__`: caching and refresh enabled. -/
def Config.default : Config := { cache_state := true, refresh_enabled := true }

/-- One character of `json.dumps` string escaping (quote and backslash). -/
def escapeJsonChar (c : Char) : String :=
  if c = '"' then "\\\"" else if c = '\\' then "\\\\" else String.singleton c

/-- `json.dumps` escaping of a string body. -/
def escapeJson (s : String) : String :=
  String.join (s.data.map escapeJsonChar)

/-- JSON rendering of a `None`-or-string state value. -/
def jsonOfStrOpt : Option String → String
  | none => "null"
  | some s => "\"" ++ escapeJson s ++ "\""

/-- JSON rendering of a boolean state value. -/
def jsonOfBool : Bool → String
  | true => "true"
  | false => "false"

/-- The byte string that `json.dump` writes for a session state: the keys in
the insertion order of `__init__`, with the default `json.dump` separators.
This is the body of the `save` branch of `_state_manager`
(src/td/client.py lines 185-190). -/
def render (st : SessionState) : String :=
  "\x7b\"access_token\": " ++ jsonOfStrOpt st.access_token ++
  ", \"refresh_token\": " ++ jsonOfStrOpt st.refresh_token ++
  ", \"access_token_expires_at\": " ++ toString st.access_token_expires_at ++
  ", \"refresh_token_expires_at\": " ++ toString st.refresh_token_expires_at ++
  ", \"authorization_url\": " ++ jsonOfStrOpt st.authorization_url ++
  ", \"redirect_code\": " ++ jsonOfStrOpt st.redirect_code ++
  ", \"loggedin\": " ++ jsonOfBool st.loggedin ++ "\x7d"

/-- The `action` argument of `_state_manager`. -/
inductive StateAction where
  | init
  | save
deriving DecidableEq

/-- `self.state.update(json.load(...))` when the loaded file carries every
state key (which is what the `save` branch always writes): every field of
the current state is overwritten by the file contents. -/
def SessionState.updateAll (_st f : SessionState) : SessionState :=
  { access_token := f.access_token
    refresh_token := f.refresh_token
    access_token_expires_at := f.access_token_expires_at
    refresh_token_expires_at := f.refresh_token_expires_at
    authorization_url := f.authorization_url
    redirect_code := f.redirect_code
    loggedin := f.loggedin }

/-- `_state_manager` (src/td/client.py lines 145-190).  The persisted file is
modelled structurally as `Option SessionState` (`none` = file absent).
Returns the new session state, the new file contents, and the raw bytes
written by this call (`none` when the call writes nothing):
 - `init` with caching on and a file present loads the file into the state;
 - `init` with caching off deletes the file;
 - `init` with no file present only prints a message and changes nothing;
 - `save` with caching on writes the full state; a no-op otherwise. -/
def state_manager (cfg : Config) (action : StateAction) (st : SessionState)
    (file : Option SessionState) :
    SessionState × Option SessionState × Option String :=
  match action with
  | .init =>
    match file, cfg.cache_state with
    | some f, true => (st.updateAll f, some f, none)
    | some _f, false => (st, none, none)
    | none, _ => (st, file, none)
  | .save =>
    if cfg.cache_state then (st, some st, some (render st)) else (st, file, none)

/-- A parsed token-endpoint response dictionary.  Each field is `none` when
the corresponding key is missing from the response
(cf. `_token_save`, src/td/client.py lines 329-358). -/
structure TokenDict where
  access_token : Option String
  refresh_token : Option String
  expires_in : Option Int
  refresh_token_expires_in : Option Int
deriving DecidableEq

/-- `_token_save` (src/td/client.py lines 329-358).  When the response lacks
an `access_token` key it calls `self.logout()` - which is exactly
`_state_manager('init')` - and returns `False`.  Otherwise it stores the
tokens, computes the absolute expiries as `now + expires_in` and
`now + refresh_token_expires_in`, sets `loggedin`, and returns `True`.
A `none` result models the uncaught KeyError raised when `access_token` is
present but one of the other three keys is missing. -/
def token_save (cfg : Config) (now : Int) (token_dict : TokenDict)
    (st : SessionState) (file : Option SessionState) :
    Option (Bool × SessionState × Option SessionState) :=
  match token_dict.access_token with
  | none =>
      let r := state_manager cfg .init st file
      some (false, r.1, r.2.1)
  | some a =>
      match token_dict.refresh_token, token_dict.expires_in,
            token_dict.refresh_token_expires_in with
      | some rt, some ei, some rei =>
          some (true,
            { st with
                access_token := some a
                refresh_token := some rt
                access_token_expires_at := now + ei
                refresh_token_expires_at := now + rei
                loggedin := true },
            file)
      | _, _, _ => none

/-- `grab_refresh_token` (src/td/client.py lines 281-301).  It POSTs the
refresh grant (exactly one HTTP request, abstracted to the parsed response
`resp`), hands the response to `_token_save` - discarding its result - then
runs `_state_manager('save')` and returns `True` unconditionally.
The final `Nat` is the number of HTTP requests issued. -/
def grab_refresh_token (cfg : Config) (now : Int) (resp : TokenDict)
    (st : SessionState) (file : Option SessionState) :
    Option (Bool × SessionState × Option SessionState × Nat) :=
  match token_save cfg now resp st file with
  | none => none
  | some (_committed, st1, f1) =>
      let r := state_manager cfg .save st1 f1
      some (true, r.1, r.2.1, 1)

/-- The body shared by both branches of `_token_seconds`
(src/td/client.py lines 373-393): `0` when the token value is falsy or the
expiry is at or before `now`, else the seconds remaining. -/
def token_seconds_core (now : Int) (token : Option String) (expires_at : Int) : Int :=
  if falsy token ∨ expires_at ≤ now then 0 else expires_at - now

/-- `_token_seconds` (src/td/client.py lines 360-393), dispatching on the
`token_type` string.  A `none` result models the UnboundLocalError raised
for any other string (the final `return token_exp` with `token_exp` never
assigned). -/
def token_seconds (now : Int) (st : SessionState) (token_type : String) : Option Int :=
  if token_type = "access_token" then
    some (token_seconds_core now st.access_token st.access_token_expires_at)
  else if token_type = "refresh_token" then
    some (token_seconds_core now st.refresh_token st.refresh_token_expires_at)
  else none

/-- `_silent_sso` (src/td/client.py lines 303-327).  Branches in source
order; the only network activity is the `grab_refresh_token` call in the
third branch, so the returned request count is `0` on the first two
branches.  `resp` is the token-endpoint response the server would return
if a refresh is attempted. -/
def silent_sso (cfg : Config) (now : Int) (resp : TokenDict)
    (st : SessionState) (file : Option SessionState) :
    Option (Bool × SessionState × Option SessionState × Nat) :=
  if 0 < token_seconds_core now st.access_token st.access_token_expires_at then
    some (true, st, file, 0)
  else if token_seconds_core now st.refresh_token st.refresh_token_expires_at ≤ 0 then
    some (false, st, file, 0)
  else if falsy st.refresh_token then
    some (false, st, file, 0)
  else
    match grab_refresh_token cfg now resp st file with
    | none => none
    | some (r, st1, f1, n) =>
        if r then some (true, st1, f1, n) else some (false, st1, f1, n)

/-- Python `str.split(sep)` on character lists, with an explicit fuel that
makes the recursion structural (fuel = length of the subject suffices):
scan left to right, emitting the accumulator at each non-overlapping
occurrence of `sep`. -/
def pySplitAux (sep : List Char) : Nat → List Char → List Char → List (List Char)
  | _, [], acc => [acc.reverse]
  | 0, s, acc => [acc.reverse ++ s]
  | n + 1, c :: rest, acc =>
    if sep.isPrefixOf (c :: rest) then
      acc.reverse :: pySplitAux sep n (List.drop sep.length (c :: rest)) []
    else
      pySplitAux sep n rest (c :: acc)

/-- Python `s.split(sep)` for a non-empty separator (the only use in the
source is the separator `"orders/"`). -/
def pySplit (sep s : String) : List String :=
  (pySplitAux sep.data s.data.length s.data []).map String.mk

/-- The order-id probe of `_make_request` (src/td/client.py lines 469-472):
`response_headers['Location'].split('orders/')[1]` when the header is
present, `''` otherwise.  A `none` result models the uncaught IndexError
raised when the header is present but does not contain `"orders/"`. -/
def order_id_of (location : Option String) : Option String :=
  match location with
  | none => some ""
  | some l => (pySplit "orders/" l).get? 1

/-- The observable parts of an HTTP response object (plus the echoed
request method and body that `requests` attaches to it). -/
structure HttpResponse where
  status_code : Nat
  url : String
  location : Option String
  content_type : Option String
  links : String
  text : String
  body_json : Option String
  req_method : String
  req_body : Option String
deriving DecidableEq

/-- The diagnostic record printed by the error-status branch of
`_make_request` (src/td/client.py lines 494-501): status code, requested
URL, response headers, link relations and raw text. -/
structure Diagnostic where
  status_code : Nat
  url : String
  location : Option String
  content_type : Option String
  links : String
  text : String
deriving DecidableEq

/-- The `response_dict` returned when the caller requested order metadata
(src/td/client.py lines 478-487). -/
structure OrderDetailsDict where
  order_id : String
  location : Option String
  content_type : Option String
  content : String
  status_code : Nat
  request_body : Option String
  request_method : String
deriving DecidableEq

/-- What a `_make_request` call can give back to its caller:
a structured order result, a parsed JSON body, or python `None` -
the latter tagged with the diagnostic record in case the error-status
branch printed one. -/
inductive MRResult where
  | order_response (d : OrderDetailsDict)
  | json_body (b : String)
  | py_none (diag : Option Diagnostic)
deriving DecidableEq

/-- The response-handling stage of `_make_request`
(src/td/client.py lines 462-501), applied to the response of the single
HTTP request the method performs.  The outer `none` models an uncaught
exception (the IndexError of the order-id probe, the KeyError of the
`Content-Type` lookup, or a `response.json()` failure); the `Nat` is the
number of HTTP requests performed, always exactly one - there is no retry. -/
def make_request (resp : HttpResponse) (order_details : Bool) :
    Option MRResult × Nat :=
  (match order_id_of resp.location with
   | none => none
   | some oid =>
     if resp.status_code = 200 ∨ resp.status_code = 201 then
       if order_details then
         some (.order_response
           { order_id := oid
             location := resp.location
             content_type := resp.content_type
             content := resp.text
             status_code := resp.status_code
             request_body := resp.req_body
             request_method := resp.req_method })
       else
         match resp.content_type with
         | none => none
         | some ct =>
           if ct = "application/json;charset=UTF-8" ∨ ct = "application/json" then
             match resp.body_json with
             | some b => some (.json_body b)
             | none => none
           else
             some (.py_none none)
     else if resp.status_code = 401 ∨ resp.status_code = 400 ∨
             resp.status_code = 403 ∨ resp.status_code = 415 ∨
             resp.status_code = 500 then
       some (.py_none (some
         { status_code := resp.status_code
           url := resp.url
           location := resp.location
           content_type := resp.content_type
           links := resp.links
           text := resp.text }))
     else
       some (.py_none none),
   1)

/-- Python `sep.join(xs)`. -/
def pyJoin (sep : String) : List String → String
  | [] => ""
  | [x] => x
  | x :: y :: xs => x ++ sep ++ pyJoin sep (y :: xs)

/-- The `ValueError` message built by `_validate_arguments`
(src/td/client.py lines 542-556): the fixed text with the allow-list
joined by `' ,'` substituted for the placeholder. -/
def validationMessage (arguments : List String) : String :=
  "\nThe argument is not valid, please choose a valid argument: " ++
    pyJoin " ," arguments ++ "\n"

/-- First-match association-list lookup (python dictionary subscript;
keys are unique in every dictionary the source builds). -/
def alookup {α : Type} (k : String) : List (String × α) → Option α
  | [] => none
  | (k1, v) :: rest => if k1 = k then some v else alookup k rest

/-- Association-list key deletion (python `del d[k]`; removes the binding
of `k`). -/
def aerase {α : Type} (k : String) : List (String × α) → List (String × α)
  | [] => []
  | (k1, v) :: rest =>
    if k1 = k then aerase k rest else (k1, v) :: aerase k rest

/-- Association-list update (python `d[k] = v`: replace in place when the
key exists, append otherwise). -/
def aset {α : Type} (k : String) (v : α) :
    List (String × α) → List (String × α)
  | [] => [(k, v)]
  | (k1, v1) :: rest =>
    if k1 = k then (k, v) :: rest else (k1, v1) :: aset k v rest

instance : DecidableEq (Except String Bool) := fun a b =>
  match a, b with
  | .ok x, .ok y => decidable_of_iff (x = y) (by simp)
  | .error x, .error y => decidable_of_iff (x = y) (by simp)
  | .ok _, .error _ => isFalse (by simp)
  | .error _, .ok _ => isFalse (by simp)

/-- The scalar-or-list `parameter_argument` of `_validate_arguments`. -/
inductive StrOrList where
  | str (s : String)
  | list (l : List String)

/-- The normalisation `if isinstance(parameter_argument, str):
parameter_argument = [parameter_argument]`. -/
def StrOrList.toList : StrOrList → List String
  | .str s => [s]
  | .list l => l

/-- Modelled from the spec: the `ENDPOINT_ARGUMENTS` validation table lives
in `td/fields.py`, which is not under src/; the spec records the
`get_market_hours` row: markets must be one of EQUITY, OPTION, FUTURE,
BOND, FOREX. -/
def ENDPOINT_ARGUMENTS : List (String × List (String × List String)) :=
  [("get_market_hours",
    [("markets", ["EQUITY", "OPTION", "FUTURE", "BOND", "FOREX"])])]

/-- `_validate_arguments` (src/td/client.py lines 503-558), parametrised by
the validation table.  The outer `none` models the KeyError of a lookup of
an endpoint or parameter missing from the table; otherwise the result is
`True` when every supplied value is in the allow-list and the raised
`ValueError` message otherwise. -/
def validate_arguments (table : List (String × List (String × List String)))
    (endpoint parameter_name : String) (parameter_argument : StrOrList) :
    Option (Except String Bool) :=
  match alookup endpoint table with
  | none => none
  | some parameters =>
    match alookup parameter_name parameters with
    | none => none
    | some arguments =>
      let args := parameter_argument.toList
      if args.all (fun a => decide (a ∈ arguments)) then some (.ok true)
      else some (.error (validationMessage arguments))

/-- A python value stored in the watch-list `query_parameters` dictionary:
`None`, a number, a string, or the nested instrument dictionary that
`create_watchlist_json` builds from the symbol and assetType values. -/
inductive PyVal where
  | py_none
  | num (n : Int)
  | str (s : String)
  | instrument (symbol assetType : PyVal)
deriving DecidableEq

/-- The default `query_parameters` dictionary of `WatchlistItem.__init__`
(src/td/watchlist_item.py lines 27-34). -/
def query_parameters_default : List (String × PyVal) :=
  [("quantity", .num 0), ("averagePrice", .num 0), ("commission", .num 0),
   ("purchasedDate", .py_none), ("symbol", .py_none), ("assetType", .py_none)]

/-- `create_watchlist_json` (src/td/watchlist_item.py lines 73-112).
`current_params` aliases `self.query_parameters`, so the returned value:
read the symbol and assetType values, delete both keys, store the nested
instrument dictionary under the new `instrument` key - is also the mutated
state of the item; the JSON string handed back is `json.dumps` of exactly
this dictionary.  A `none` result models the uncaught KeyError raised when
the `symbol` (or `assetType`) key is no longer present. -/
def create_watchlist_json (query_parameters : List (String × PyVal)) :
    Option (List (String × PyVal)) :=
  match alookup "symbol" query_parameters, alookup "assetType" query_parameters with
  | some sv, some av =>
      some (aset "instrument" (.instrument sv av)
        (aerase "assetType" (aerase "symbol" query_parameters)))
  | _, _ => none

/-! Concrete fixtures used by the counterexamples and witnesses. -/

/-- A fully authenticated session state, as left by an earlier login. -/
def stateLoggedIn : SessionState :=
  { access_token := some "OLD-ACCESS"
    refresh_token := some "OLD-REFRESH"
    access_token_expires_at := 9999
    refresh_token_expires_at := 9999
    authorization_url := none
    redirect_code := none
    loggedin := true }

/-- A session state whose access token is expired but whose refresh token
is still live. -/
def stateExpiredAccess : SessionState :=
  { stateLoggedIn with access_token_expires_at := 0 }

/-- A token-endpoint response that carries no `access_token` key. -/
def emptyTokenResponse : TokenDict :=
  { access_token := none
    refresh_token := none
    expires_in := none
    refresh_token_expires_in := none }

/-- A session state holding an empty-string access token with a future
expiry. -/
def stateEmptyToken : SessionState :=
  { SessionState.default with
      access_token := some ""
      access_token_expires_at := 100 }

/-- The `ValueError` message the validator produces for the
`get_market_hours` markets allow-list. -/
def marketsMessage : String :=
  "\nThe argument is not valid, please choose a valid argument: EQUITY ,OPTION ,FUTURE ,BOND ,FOREX\n"

/-- A 401 response carrying a `Location` header that does not contain the
substring `"orders/"`. -/
def response401Loc : HttpResponse :=
  { status_code := 401
    url := "https://api.tdameritrade.com/v1/accounts"
    location := some "https://auth.tdameritrade.com/login"
    content_type := none
    links := ""
    text := "unauthorized"
    body_json := none
    req_method := "GET"
    req_body := none }

/-- Whether a dispatch outcome is "printed a diagnostic and returned None". -/
def returnedNoneWithDiag : Option MRResult → Bool
  | some (.py_none (some _)) => true
  | _ => false


/-- The state written by the success branch of `_token_save`: tokens from
the response, absolute expiries `now + expires_in` and
`now + refresh_token_expires_in`, and the logged-in flag set. -/
def commit_state (st : SessionState) (now : Int) (a r : String)
    (ei rei : Int) : SessionState :=
  { st with
      access_token := some a
      refresh_token := some r
      access_token_expires_at := now + ei
      refresh_token_expires_at := now + rei
      loggedin := true }

/-- A session state whose access token is live for 50 more seconds at
`now = 20`. -/
def stateLiveToken : SessionState :=
  { SessionState.default with
      access_token := some "TOK"
      access_token_expires_at := 50 }

/-- A session state with a fresh access token, for the silent-SSO witness. -/
def stateFreshAccess : SessionState :=
  { SessionState.default with
      access_token := some "LIVE"
      access_token_expires_at := 100 }

/-- A 200 DELETE response whose `Location` header ends in `orders/555`. -/
def c3Response : HttpResponse :=
  { status_code := 200
    url := "https://api.tdameritrade.com/v1/accounts/ACCT123/orders/555"
    location := some "https://api.tdameritrade.com/v1/accounts/ACCT123/orders/555"
    content_type := none
    links := ""
    text := ""
    body_json := none
    req_method := "DELETE"
    req_body := none }

/-- A 201 response with no `Location` header. -/
def c3NoLocation : HttpResponse :=
  { c3Response with status_code := 201, location := none }

/-- A 401 response with no `Location` header. -/
def response401NoLoc : HttpResponse :=
  { response401Loc with location := none }

/-- The watch-list query parameters after a first successful
`create_watchlist_json` call on a freshly initialised item. -/
def watchlistAfterFirstCall : List (String × PyVal) :=
  [("quantity", .num 0), ("averagePrice", .num 0), ("commission", .num 0),
   ("purchasedDate", .py_none), ("instrument", .instrument .py_none .py_none)]

/-! ## Helper lemmas -/

theorem falsy_iff (t : Option String) :
    falsy t = true ↔ t = none ∨ t = some "" := by
  cases t with
  | none => simp [falsy]
  | some s => simp [falsy]

theorem alookup_aerase_self {A : Type} (k : String) (d : List (String × A)) :
    alookup k (aerase k d) = none := by
  induction d with
  | nil => rfl
  | cons p rest ih =>
      obtain ⟨k1, v⟩ := p
      by_cases h : k1 = k
      · simp [aerase, h, ih]
      · simp [aerase, alookup, h, ih]

theorem alookup_aerase_ne {A : Type} {k k1 : String} (h : k1 ≠ k)
    (d : List (String × A)) : alookup k (aerase k1 d) = alookup k d := by
  induction d with
  | nil => rfl
  | cons p rest ih =>
      obtain ⟨k2, v⟩ := p
      by_cases h2 : k2 = k1
      · subst h2
        have h3 : k2 ≠ k := h
        simp [aerase, alookup, h3, ih]
      · by_cases h3 : k2 = k
        · subst h3; simp [aerase, alookup, h2]
        · simp [aerase, alookup, h2, h3, ih]

theorem alookup_aset_ne {A : Type} {k k1 : String} (h : k1 ≠ k) (v : A)
    (d : List (String × A)) : alookup k (aset k1 v d) = alookup k d := by
  induction d with
  | nil => simp [aset, alookup, h]
  | cons p rest ih =>
      obtain ⟨k2, v2⟩ := p
      by_cases h2 : k2 = k1
      · subst h2
        have h3 : k2 ≠ k := h
        simp [aset, alookup, h3]
      · simp [aset, alookup, h2, ih]

theorem alookup_aset_self {A : Type} (k : String) (v : A)
    (d : List (String × A)) : alookup k (aset k v d) = some v := by
  induction d with
  | nil => simp [aset, alookup]
  | cons p rest ih =>
      obtain ⟨k2, v2⟩ := p
      by_cases h2 : k2 = k
      · simp [aset, alookup, h2]
      · simp [aset, alookup, h2, ih]

theorem pyJoin_mem_data (sep : String) {a : String} :
    ∀ {l : List String}, a ∈ l →
      ∃ p q, (pyJoin sep l).data = p ++ a.data ++ q := by
  intro l
  induction l with
  | nil => intro h; cases h
  | cons x xs ih =>
    intro h
    cases xs with
    | nil =>
      rcases List.mem_singleton.mp h with rfl
      exact ⟨[], [], by simp [pyJoin]⟩
    | cons y ys =>
      rcases List.mem_cons.mp h with rfl | h2
      · refine ⟨[], sep.data ++ (pyJoin sep (y :: ys)).data, ?_⟩
        simp [pyJoin, String.data_append]
      · obtain ⟨p, q, hpq⟩ := ih h2
        refine ⟨x.data ++ sep.data ++ p, q, ?_⟩
        simp [pyJoin, String.data_append, hpq]

theorem validationMessage_mentions (arguments : List String) {a : String}
    (h : a ∈ arguments) :
    ∃ p q, (validationMessage arguments).data = p ++ a.data ++ q := by
  obtain ⟨p, q, hpq⟩ := pyJoin_mem_data " ," h
  refine ⟨"\nThe argument is not valid, please choose a valid argument: ".data ++ p,
    q ++ "\n".data, ?_⟩
  simp [validationMessage, String.data_append, hpq]


/-! ## Claim theorems -/

/-- C1 (code-bug evidence): evaluating `_token_save` at a token response
with no `access_token` key shows it returns `False` but does NOT clear the
session state to its empty defaults: with a cached state file present the
`logout()` call reloads the old tokens from the file, and with no file
present it leaves the in-memory state untouched; either way the state is
not the default state. -/
theorem C1_token_save_reports_false_but_keeps_state :
    token_save Config.default 0 emptyTokenResponse stateLoggedIn (some stateLoggedIn) =
      some (false, stateLoggedIn, some stateLoggedIn) ∧
    token_save Config.default 0 emptyTokenResponse stateLoggedIn none =
      some (false, stateLoggedIn, none) ∧
    stateLoggedIn ≠ SessionState.default := by
  refine ⟨rfl, rfl, by decide⟩

/-- C2 (code-bug evidence): `grab_refresh_token` returns `True` to its
caller even when the token response lacks an access token (the result of
`_token_save` is discarded), and consequently `_silent_sso` also reports
success while the stored access token is still expired. -/
theorem C2_grab_refresh_token_true_on_failure :
    grab_refresh_token Config.default 0 emptyTokenResponse stateLoggedIn
        (some stateLoggedIn) =
      some (true, stateLoggedIn, some stateLoggedIn, 1) ∧
    silent_sso Config.default 5 emptyTokenResponse stateExpiredAccess
        (some stateExpiredAccess) =
      some (true, stateExpiredAccess, some stateExpiredAccess, 1) ∧
    token_seconds 5 stateExpiredAccess "access_token" = some 0 := by
  refine ⟨rfl, by decide, by decide⟩

/-- C3 (confirmed): for a dispatch whose response has status 200 or 201
with order metadata requested, an absent `Location` header yields the empty
order identifier (not an error), and a `Location` header that splits on
`"orders/"` into a prefix and a remainder yields that remainder. -/
theorem C3_order_id_parsing (resp : HttpResponse)
    (hst : resp.status_code = 200 ∨ resp.status_code = 201) :
    (resp.location = none →
      (make_request resp true).1 = some (.order_response
        { order_id := ""
          location := resp.location
          content_type := resp.content_type
          content := resp.text
          status_code := resp.status_code
          request_body := resp.req_body
          request_method := resp.req_method })) ∧
    (∀ l seg1 seg2, resp.location = some l →
      pySplit "orders/" l = [seg1, seg2] →
      (make_request resp true).1 = some (.order_response
        { order_id := seg2
          location := resp.location
          content_type := resp.content_type
          content := resp.text
          status_code := resp.status_code
          request_body := resp.req_body
          request_method := resp.req_method })) := by
  constructor
  · intro hl
    rcases hst with h | h <;> simp [make_request, order_id_of, hl, h]
  · intro l seg1 seg2 hl hsplit
    rcases hst with h | h <;> simp [make_request, order_id_of, hl, hsplit, h]

/-- C3 witness: the spec example - a DELETE against
`accounts/ACCT123/orders/555` whose `Location` header ends in `orders/555`
yields order id `"555"`, and an absent header yields `""`. -/
theorem C3_order_id_parsing_witness :
    (make_request c3Response true).1 = some (.order_response
      { order_id := "555"
        location := c3Response.location
        content_type := c3Response.content_type
        content := c3Response.text
        status_code := c3Response.status_code
        request_body := c3Response.req_body
        request_method := c3Response.req_method }) ∧
    (make_request c3NoLocation true).1 = some (.order_response
      { order_id := ""
        location := c3NoLocation.location
        content_type := c3NoLocation.content_type
        content := c3NoLocation.text
        status_code := c3NoLocation.status_code
        request_body := c3NoLocation.req_body
        request_method := c3NoLocation.req_method }) := by
  constructor
  · exact (C3_order_id_parsing c3Response (Or.inl rfl)).2
      "https://api.tdameritrade.com/v1/accounts/ACCT123/orders/555"
      "https://api.tdameritrade.com/v1/accounts/ACCT123/" "555" rfl (by decide)
  · exact (C3_order_id_parsing c3NoLocation (Or.inr rfl)).1 rfl

/-- C4 counterexample: the `ValueError` raised for the invalid market
`"CRYPTO"` carries the full allow-list but does not mention the offending
value anywhere in its text (splitting the message on `"CRYPTO"` leaves a
single segment, i.e. there is no occurrence). -/
theorem C4_message_omits_offending_value :
    validate_arguments ENDPOINT_ARGUMENTS "get_market_hours" "markets"
        (.list ["CRYPTO"]) = some (.error marketsMessage) ∧
    (pySplit "CRYPTO" marketsMessage).length = 1 := by
  refine ⟨by decide, by decide⟩

/-- C4 (amended): for every table entry, the validator normalises a scalar
to a one-element list, returns `True` when every supplied value is in the
allow-list, and otherwise raises a `ValueError` whose message names every
value of the full allow-list - but not the offending value. -/
theorem C4_validator_behaviour
    (table : List (String × List (String × List String)))
    (endpoint parameter_name : String) (arg : StrOrList)
    (params : List (String × List String)) (arguments : List String)
    (hEndpoint : alookup endpoint table = some params)
    (hParam : alookup parameter_name params = some arguments) :
    ((∀ a ∈ arg.toList, a ∈ arguments) →
      validate_arguments table endpoint parameter_name arg = some (.ok true)) ∧
    ((∃ a ∈ arg.toList, a ∉ arguments) →
      validate_arguments table endpoint parameter_name arg =
        some (.error (validationMessage arguments)) ∧
      ∀ a ∈ arguments, ∃ p q,
        (validationMessage arguments).data = p ++ a.data ++ q) := by
  constructor
  · intro hall
    have hc : (arg.toList.all fun x => decide (x ∈ arguments)) = true := by
      simp only [List.all_eq_true, decide_eq_true_eq]
      exact hall
    simp [validate_arguments, hEndpoint, hParam, hc]
  · rintro ⟨a, ha, hna⟩
    have hc : (arg.toList.all fun x => decide (x ∈ arguments)) = false := by
      rw [Bool.eq_false_iff]
      simp only [ne_eq, List.all_eq_true, decide_eq_true_eq]
      push_neg
      exact ⟨a, ha, hna⟩
    refine ⟨by simp [validate_arguments, hEndpoint, hParam, hc], ?_⟩
    intro b hb
    exact validationMessage_mentions arguments hb

/-- C4 witness: the spec example
`validate("get_market_hours", "markets", ["EQUITY","FOREX"])` succeeds. -/
theorem C4_validator_behaviour_witness :
    validate_arguments ENDPOINT_ARGUMENTS "get_market_hours" "markets"
        (.list ["EQUITY", "FOREX"]) = some (.ok true) :=
  (C4_validator_behaviour ENDPOINT_ARGUMENTS "get_market_hours" "markets"
    (.list ["EQUITY", "FOREX"])
    [("markets", ["EQUITY", "OPTION", "FUTURE", "BOND", "FOREX"])]
    ["EQUITY", "OPTION", "FUTURE", "BOND", "FOREX"] rfl rfl).1 (by decide)

/-- C5 counterexample: a state holding the empty string as access token
with a future expiry.  The token is present (not absent) and unexpired,
yet `_token_seconds` returns 0 rather than the seconds remaining, because
the source tests python truthiness, and the empty string is falsy. -/
theorem C5_empty_string_token_counterexample :
    stateEmptyToken.access_token = some "" ∧
    (0 : Int) < stateEmptyToken.access_token_expires_at ∧
    token_seconds 0 stateEmptyToken "access_token" = some 0 ∧
    token_seconds 0 stateEmptyToken "access_token" ≠
      some (stateEmptyToken.access_token_expires_at - 0) := by
  refine ⟨rfl, by decide, by decide, by decide⟩

/-- C5 (amended): for each token kind, `_token_seconds` returns 0 when the
token is absent OR EMPTY or its expiry is at/before `now`, and otherwise
the seconds remaining `t - now`. -/
theorem C5_token_seconds_behaviour (now : Int) (st : SessionState) :
    ((st.access_token = none ∨ st.access_token = some "" ∨
        st.access_token_expires_at ≤ now) →
      token_seconds now st "access_token" = some 0) ∧
    (st.access_token ≠ none → st.access_token ≠ some "" →
      now < st.access_token_expires_at →
      token_seconds now st "access_token" =
        some (st.access_token_expires_at - now)) ∧
    ((st.refresh_token = none ∨ st.refresh_token = some "" ∨
        st.refresh_token_expires_at ≤ now) →
      token_seconds now st "refresh_token" = some 0) ∧
    (st.refresh_token ≠ none → st.refresh_token ≠ some "" →
      now < st.refresh_token_expires_at →
      token_seconds now st "refresh_token" =
        some (st.refresh_token_expires_at - now)) := by
  have hcore0 : ∀ (tok : Option String) (e : Int),
      (tok = none ∨ tok = some "" ∨ e ≤ now) →
      token_seconds_core now tok e = 0 := by
    intro tok e h
    unfold token_seconds_core
    rcases h with h | h | h
    · simp [falsy, h]
    · simp [falsy, h]
    · simp [h]
  have hcore1 : ∀ (tok : Option String) (e : Int),
      tok ≠ none → tok ≠ some "" → now < e →
      token_seconds_core now tok e = e - now := by
    intro tok e h1 h2 h3
    unfold token_seconds_core
    rw [if_neg]
    rintro (hf | hle)
    · rcases (falsy_iff tok).mp hf with h | h
      · exact h1 h
      · exact h2 h
    · omega
  refine ⟨?_, ?_, ?_, ?_⟩
  · intro h
    exact congrArg some (hcore0 _ _ h)
  · intro h1 h2 h3
    exact congrArg some (hcore1 _ _ h1 h2 h3)
  · intro h
    exact congrArg some (hcore0 _ _ h)
  · intro h1 h2 h3
    exact congrArg some (hcore1 _ _ h1 h2 h3)

/-- C5 witness: a live non-empty token at `now = 20` with expiry 50 has 30
seconds remaining. -/
theorem C5_token_seconds_behaviour_witness :
    token_seconds 20 stateLiveToken "access_token" =
      some (stateLiveToken.access_token_expires_at - 20) :=
  (C5_token_seconds_behaviour 20 stateLiveToken).2.1
    (by decide) (by decide) (by decide)

/-- C6 (confirmed): `_silent_sso` returns `True` with zero network calls
when the access token has strictly positive remaining seconds; when the
access token is expired it returns `False` with zero network calls if the
refresh token has no seconds remaining; and when the refresh token still
has positive seconds remaining it is necessarily present (truthy) and
`_silent_sso` performs exactly the `grab_refresh_token` attempt, returning
its result and its single network call. -/
theorem C6_silent_sso_behaviour (cfg : Config) (now : Int) (resp : TokenDict)
    (st : SessionState) (file : Option SessionState) :
    (0 < token_seconds_core now st.access_token st.access_token_expires_at →
      silent_sso cfg now resp st file = some (true, st, file, 0)) ∧
    (token_seconds_core now st.access_token st.access_token_expires_at ≤ 0 →
      token_seconds_core now st.refresh_token st.refresh_token_expires_at ≤ 0 →
      silent_sso cfg now resp st file = some (false, st, file, 0)) ∧
    (token_seconds_core now st.access_token st.access_token_expires_at ≤ 0 →
      0 < token_seconds_core now st.refresh_token st.refresh_token_expires_at →
      falsy st.refresh_token = false ∧
      ∀ r st1 f1 n,
        grab_refresh_token cfg now resp st file = some (r, st1, f1, n) →
        silent_sso cfg now resp st file = some (r, st1, f1, n)) := by
  refine ⟨?_, ?_, ?_⟩
  · intro h
    simp only [silent_sso]
    rw [if_pos h]
  · intro h1 h2
    simp only [silent_sso]
    rw [if_neg (by omega), if_pos h2]
  · intro h1 h2
    have hf : falsy st.refresh_token = false := by
      cases hb : falsy st.refresh_token
      · rfl
      · exfalso
        have hz : token_seconds_core now st.refresh_token
            st.refresh_token_expires_at = 0 := by
          simp [token_seconds_core, hb]
        omega
    refine ⟨hf, ?_⟩
    intro r st1 f1 n hg
    simp only [silent_sso]
    rw [if_neg (by omega), if_neg (by omega), if_neg (by simp [hf]), hg]
    cases r
    · simp
    · simp

/-- C6 witness: with a live access token silent SSO succeeds with zero
network calls; with everything empty it fails with zero network calls. -/
theorem C6_silent_sso_behaviour_witness :
    silent_sso Config.default 0 emptyTokenResponse stateFreshAccess none =
      some (true, stateFreshAccess, none, 0) ∧
    silent_sso Config.default 0 emptyTokenResponse SessionState.default none =
      some (false, SessionState.default, none, 0) := by
  constructor
  · exact (C6_silent_sso_behaviour Config.default 0 emptyTokenResponse
      stateFreshAccess none).1 (by decide)
  · exact (C6_silent_sso_behaviour Config.default 0 emptyTokenResponse
      SessionState.default none).2.1 (by decide) (by decide)

/-- C7 (confirmed): committing a token response that carries an access
token stores both tokens, sets the absolute expiries to `now + expires_in`
and `now + refresh_token_expires_in`, sets the logged-in flag, reports
`True`, and the persisted state round-trips through a save/load cycle to
the same values. -/
theorem C7_token_commit (cfg : Config) (now ei rei : Int) (a r : String)
    (st : SessionState) (file : Option SessionState)
    (hcache : cfg.cache_state = true) :
    token_save cfg now
        { access_token := some a, refresh_token := some r,
          expires_in := some ei, refresh_token_expires_in := some rei }
        st file =
      some (true, commit_state st now a r ei rei, file) ∧
    (commit_state st now a r ei rei).access_token = some a ∧
    (commit_state st now a r ei rei).refresh_token = some r ∧
    (commit_state st now a r ei rei).access_token_expires_at = now + ei ∧
    (commit_state st now a r ei rei).refresh_token_expires_at = now + rei ∧
    (commit_state st now a r ei rei).loggedin = true ∧
    (state_manager cfg .save (commit_state st now a r ei rei) file).1 =
      commit_state st now a r ei rei ∧
    (state_manager cfg .save (commit_state st now a r ei rei) file).2.1 =
      some (commit_state st now a r ei rei) ∧
    (state_manager cfg .init SessionState.default
        (some (commit_state st now a r ei rei))).1 =
      commit_state st now a r ei rei := by
  refine ⟨rfl, rfl, rfl, rfl, rfl, rfl, ?_, ?_, ?_⟩
  · simp [state_manager, hcache]
  · simp [state_manager, hcache]
  · simp [state_manager, hcache, SessionState.updateAll]

/-- C7 witness: the spec example, committed at `now = 1000` with
`expires_in = 1800` and `refresh_token_expires_in = 7776000`. -/
theorem C7_token_commit_witness :
    token_save Config.default 1000
        { access_token := some "A", refresh_token := some "R",
          expires_in := some 1800, refresh_token_expires_in := some 7776000 }
        SessionState.default none =
      some (true, commit_state SessionState.default 1000 "A" "R" 1800 7776000,
        none) ∧
    (state_manager Config.default .init SessionState.default
        (some (commit_state SessionState.default 1000 "A" "R" 1800 7776000))).1 =
      commit_state SessionState.default 1000 "A" "R" 1800 7776000 := by
  have h := C7_token_commit Config.default 1000 1800 7776000 "A" "R"
    SessionState.default none rfl
  exact ⟨h.1, h.2.2.2.2.2.2.2.2⟩

/-- C8 counterexample: a 401 response that carries a `Location` header not
containing `"orders/"`.  The order-id probe runs before status
classification and raises an uncaught IndexError, so the dispatcher
neither emits the diagnostic record nor returns `None`. -/
theorem C8_location_header_counterexample :
    response401Loc.status_code = 401 ∧
    (make_request response401Loc false).1 = none ∧
    returnedNoneWithDiag (make_request response401Loc false).1 = false := by
  refine ⟨rfl, by decide, by decide⟩

/-- C8 (amended): for every dispatch whose response has a status in
{400, 401, 403, 415, 500} and whose order-id probe does not crash (the
`Location` header is absent or contains `"orders/"`), the dispatcher
emits the diagnostic record (status, URL, headers, links, text), returns
python `None`, performs exactly one HTTP request (no retry), and raises
no typed error. -/
theorem C8_error_status_diagnoses (resp : HttpResponse) (order_details : Bool)
    (oid : String) (hloc : order_id_of resp.location = some oid)
    (hstatus : resp.status_code = 400 ∨ resp.status_code = 401 ∨
      resp.status_code = 403 ∨ resp.status_code = 415 ∨
      resp.status_code = 500) :
    make_request resp order_details =
      (some (.py_none (some
        { status_code := resp.status_code
          url := resp.url
          location := resp.location
          content_type := resp.content_type
          links := resp.links
          text := resp.text })), 1) := by
  rcases hstatus with h | h | h | h | h <;>
    simp [make_request, hloc, h]

/-- C8 witness: a 401 with no `Location` header is diagnosed and yields
`None` after exactly one HTTP request. -/
theorem C8_error_status_diagnoses_witness :
    make_request response401NoLoc false =
      (some (.py_none (some
        { status_code := response401NoLoc.status_code
          url := response401NoLoc.url
          location := response401NoLoc.location
          content_type := response401NoLoc.content_type
          links := response401NoLoc.links
          text := response401NoLoc.text })), 1) :=
  C8_error_status_diagnoses response401NoLoc false "" rfl
    (Or.inr (Or.inl rfl))

/-- C9 (confirmed): with caching enabled, a save writes exactly the
rendered bytes of the current state and leaves the state unchanged, so a
second save with the state unchanged writes byte-identical contents. -/
theorem C9_save_idempotent (cfg : Config) (st : SessionState)
    (file : Option SessionState) (hcache : cfg.cache_state = true) :
    (state_manager cfg .save st file).2.2 = some (render st) ∧
    (state_manager cfg .save st file).1 = st ∧
    (state_manager cfg .save
        (state_manager cfg .save st file).1
        (state_manager cfg .save st file).2.1).2.2 =
      (state_manager cfg .save st file).2.2 := by
  simp [state_manager, hcache]

/-- C9 witness: saving the default state writes its rendered bytes. -/
theorem C9_save_idempotent_witness :
    (state_manager Config.default .save SessionState.default none).2.2 =
      some (render SessionState.default) :=
  (C9_save_idempotent Config.default SessionState.default none rfl).1

/-- C10 (confirmed): whenever `create_watchlist_json` succeeds it has
deleted the `symbol` and `assetType` keys from the query parameters and
replaced them by the nested `instrument` dictionary, so a second call on
the same item raises a KeyError instead of returning the same JSON string:
the operation is not repeatable. -/
theorem C10_create_watchlist_json_not_repeatable
    (qp qp2 : List (String × PyVal))
    (h : create_watchlist_json qp = some qp2) :
    alookup "symbol" qp2 = none ∧
    alookup "assetType" qp2 = none ∧
    (∃ sv av, alookup "symbol" qp = some sv ∧
      alookup "assetType" qp = some av ∧
      alookup "instrument" qp2 = some (.instrument sv av)) ∧
    create_watchlist_json qp2 = none := by
  cases hs : alookup "symbol" qp with
  | none =>
    unfold create_watchlist_json at h
    rw [hs] at h
    simp at h
  | some sv =>
    cases ha : alookup "assetType" qp with
    | none =>
      unfold create_watchlist_json at h
      rw [hs, ha] at h
      simp at h
    | some av =>
      unfold create_watchlist_json at h
      rw [hs, ha] at h
      simp only [Option.some.injEq] at h
      subst h
      have h1 : alookup "symbol"
          (aset "instrument" (PyVal.instrument sv av)
            (aerase "assetType" (aerase "symbol" qp))) = none := by
        rw [alookup_aset_ne (by decide), alookup_aerase_ne (by decide),
          alookup_aerase_self]
      refine ⟨h1, ?_, ⟨sv, av, rfl, rfl, ?_⟩, ?_⟩
      · rw [alookup_aset_ne (by decide), alookup_aerase_self]
      · exact alookup_aset_self _ _ _
      · unfold create_watchlist_json
        rw [h1]

/-- C10 witness: a freshly initialised watch-list item succeeds once and
the second call on the mutated parameters raises the KeyError. -/
theorem C10_create_watchlist_json_not_repeatable_witness :
    create_watchlist_json watchlistAfterFirstCall = none :=
  (C10_create_watchlist_json_not_repeatable query_parameters_default
    watchlistAfterFirstCall (by decide)).2.2.2

end TD


